import Mathlib

/-!
Verification of the liquidity-pool implementation in
`src/src/liquidity_pool.rs` against its natural-language specification.

Modelling conventions:
* `u64` values are `Nat` together with explicit `% 2 ^ 64` wrapping
  (`wadd`, `wsub`, `wmul`), matching Rust's release-profile wrapping
  semantics for the unchecked `+`, `-`, `*` operators on `u64`.
* `f64` inputs and the `f64` arithmetic inside `swap` are modelled as exact
  rational arithmetic (`ℚ`).  Every concrete value used in a theorem below
  was checked to sit far from an `f64` rounding boundary, so the modelled
  results coincide with the ones the binary computes.
* Rust's `f64::round` rounds half away from zero (`roundHalfAway`), and the
  `as u64` cast truncates toward zero, clamping negatives to `0` and values
  above `u64::MAX` to `u64::MAX` (`u64cast`).
* `Nat` division agrees with the source's `u64` division only on nonzero
  divisors: Rust division by zero panics in *every* build profile, while
  `Nat` yields `0`.  A pool whose *scaled* `liquidity_target` is `0` is
  reachable, because `init` validates only the decimal input (e.g.
  `init(1.0, 1e-11, 0.1, 9.0)` passes validation and rounds the target to
  `0`).  Every theorem below about the *return value* of `swap` or
  `remove_liquidity` therefore assumes `liquidity_target ≠ 0`; at the
  zero-target states the source panics at the fee division and returns
  nothing, so no return-value statement is made there.
-/

namespace LiquidityPool

/-- Error enum `LpPoolError` from the source. -/
inductive LpPoolError
  | InvalidFee
  | InsufficientLiquidity
  | InsufficientStakedTokens
  | InvalidTokenAmount
deriving DecidableEq

/-- `PRECISION_FACTOR: u64 = 0x1_0000_0000` — the fixed-point scale. -/
def PRECISION_FACTOR : Nat := 2 ^ 32

/-- Modulus of `u64` arithmetic. -/
def U64 : Nat := 2 ^ 64

/-- Wrapping `u64` addition. -/
def wadd (a b : Nat) : Nat := (a + b) % U64

/-- Wrapping `u64` subtraction (arguments assumed `< 2 ^ 64`). -/
def wsub (a b : Nat) : Nat := (a + U64 - b % U64) % U64

/-- Wrapping `u64` multiplication. -/
def wmul (a b : Nat) : Nat := a * b % U64

/-- Rust `f64::round`: round half away from zero. -/
def roundHalfAway (x : ℚ) : ℤ := if 0 ≤ x then ⌊x + 1 / 2⌋ else -⌊-x + 1 / 2⌋

/-- Rust `as u64` cast on an integral value: clamp to `[0, 2^64)`. -/
def u64cast (x : ℤ) : Nat := min (U64 - 1) x.toNat

/-- The source's input conversion `(x * PRECISION_FACTOR as f64).round() as u64`. -/
def toScaled (x : ℚ) : Nat := u64cast (roundHalfAway (x * (PRECISION_FACTOR : ℚ)))

/-- Rust `y as u64` for an `f64` value `y`: truncate toward zero with clamping. -/
def f64ToU64 (x : ℚ) : Nat := u64cast ⌊x⌋

/-- The source's output conversion `x as f64 / PRECISION_FACTOR as f64`. -/
def fromScaled (n : Nat) : ℚ := (n : ℚ) / (PRECISION_FACTOR : ℚ)

/-- The `LpPool` struct: all fields are scaled `u64` quantities. -/
structure LpPool where
  price : Nat
  token_amount : Nat
  st_token_amount : Nat
  lp_token_amount : Nat
  liquidity_target : Nat
  min_fee : Nat
  max_fee : Nat
deriving DecidableEq

/-- `LpPool::init`.  Validation happens on the decimal inputs, before any
scaling; on success the pool is seeded with `token_amount = lp_token_amount =
liquidity_target` (scaled) and `st_token_amount = 0`, and the fee inputs are
stored as their `0.01 ×` scaled fractions. -/
def LpPool.init (price liquidity_target min_fee max_fee : ℚ) :
    Except LpPoolError LpPool :=
  if max_fee > 100 ∨ min_fee < 0 ∨ min_fee > max_fee ∨ liquidity_target ≤ 0 then
    .error .InvalidFee
  else
    let priceS := toScaled price
    let ltS := toScaled liquidity_target
    let minS := toScaled (1 / 100 * min_fee)
    let maxS := toScaled (1 / 100 * max_fee)
    .ok { price := priceS, token_amount := ltS, st_token_amount := 0,
          lp_token_amount := ltS, liquidity_target := ltS,
          min_fee := minS, max_fee := maxS }

/-- `LpPool::add_liquidity` (takes `&mut self`; modelled as returning the
result together with the post-call state; on error the state is returned
unchanged).  The contribution is split `floor(n/2)` to the base reserve and
`n - floor(n/2)` to the staked reserve, and LP tokens are minted `1:1`. -/
def LpPool.add_liquidity (p : LpPool) (token_amount : ℚ) :
    (Except LpPoolError Nat) × LpPool :=
  let new_tokens_u64 := toScaled token_amount
  if token_amount ≤ 0 then (.error .InvalidTokenAmount, p)
  else
    let tokens_to_add := new_tokens_u64 / 2
    let staked_tokens_to_add := new_tokens_u64 - tokens_to_add
    (.ok new_tokens_u64,
      { p with
        token_amount := wadd p.token_amount tokens_to_add,
        st_token_amount := wadd p.st_token_amount staked_tokens_to_add,
        lp_token_amount := wadd p.lp_token_amount new_tokens_u64 })

/-- The `unstake_fee` expression of `LpPool::remove_liquidity`:
`max_fee - (max_fee - min_fee) * lp_token_amount_u64 / liquidity_target`,
computed in (wrapping) `u64` arithmetic.  The source computes this value
before the liquidity check and never uses it.  Caveat: when
`liquidity_target = 0` the source panics at the division (in every build
profile) while `Nat` division yields `0`; theorems about the return value of
`remove_liquidity` therefore assume `liquidity_target ≠ 0`. -/
def LpPool.unstake_fee (p : LpPool) (lp_token_amount_u64 : Nat) : Nat :=
  wsub p.max_fee (wmul (wsub p.max_fee p.min_fee) lp_token_amount_u64 / p.liquidity_target)

/-- `LpPool::remove_liquidity`: burns the scaled request from the LP supply,
pays exactly that many base tokens (`// Simplified logic`) and zero staked
tokens, and subtracts the payout from the base reserve. -/
def LpPool.remove_liquidity (p : LpPool) (lp_token_amount : ℚ) :
    (Except LpPoolError (Nat × Nat)) × LpPool :=
  let lp_token_amount_u64 := toScaled lp_token_amount
  let _unstake_fee := p.unstake_fee lp_token_amount_u64
  if p.lp_token_amount < lp_token_amount_u64 then
    (.error .InsufficientLiquidity, p)
  else
    let tokens_received_u64 := lp_token_amount_u64
    (.ok (tokens_received_u64, 0),
      { p with
        lp_token_amount := p.lp_token_amount - lp_token_amount_u64,
        token_amount := wsub p.token_amount tokens_received_u64 })

/-- The fee computed by `LpPool::swap`:
`0.01 * (max_fee - (max_fee - min_fee) / liquidity_target * left_staked_tokens) as f64
 / PRECISION_FACTOR as f64`
where `left_staked_tokens = st_token_amount - staked_token_u64` (wrapping
`u64` subtraction, performed before the reserve check).  Caveat: when
`liquidity_target = 0` the source panics at the division (in every build
profile) while `Nat` division yields `0`; theorems about the return value of
`swap` therefore assume `liquidity_target ≠ 0`. -/
def LpPool.swap_fee (p : LpPool) (staked_token_u64 : Nat) : ℚ :=
  let left_staked_tokens := wsub p.st_token_amount staked_token_u64
  1 / 100 *
    ((wsub p.max_fee
        (wmul (wsub p.max_fee p.min_fee / p.liquidity_target) left_staked_tokens) : Nat) : ℚ) /
    (PRECISION_FACTOR : ℚ)

/-- `LpPool::swap`: checks the *staked* reserve against the scaled input,
then pays `(staked_token_u64 as f64 * (price / PRECISION_FACTOR) * (1 - fee)) as u64`
base tokens, removing the input from the staked reserve and adding the payout
to the base reserve. -/
def LpPool.swap (p : LpPool) (staked_token_amount : ℚ) :
    (Except LpPoolError Nat) × LpPool :=
  if staked_token_amount ≤ 0 then (.error .InvalidTokenAmount, p)
  else
    let staked_token_u64 := toScaled staked_token_amount
    let fee := p.swap_fee staked_token_u64
    if staked_token_u64 > p.st_token_amount then
      (.error .InsufficientStakedTokens, p)
    else
      let tokens_received_u64 :=
        f64ToU64 ((staked_token_u64 : ℚ) * ((p.price : ℚ) / (PRECISION_FACTOR : ℚ)) * (1 - fee))
      (.ok tokens_received_u64,
        { p with
          st_token_amount := p.st_token_amount - staked_token_u64,
          token_amount := wadd p.token_amount tokens_received_u64 })

/-! Definitions below transcribe the *specification's* formulas (spec §4.5
and §4.4), for comparison with the implementation. -/

/-- Spec §4.5 step 1: `gross_tokens_out = staked_token_amount * price`,
scaled (multiply then divide out one factor of `PRECISION_FACTOR`). -/
def specGrossTokensOut (p : LpPool) (s : Nat) : Nat := s * p.price / PRECISION_FACTOR

/-- Spec §4.5 step 2: `reserve_after = token_amount - gross_tokens_out`. -/
def specReserveAfter (p : LpPool) (s : Nat) : Nat :=
  p.token_amount - specGrossTokensOut p s

/-- Spec §4.5 step 3: the fee fraction
`max_fee - (max_fee - min_fee) * min(reserve_after, liquidity_target) / liquidity_target`,
with the fee parameters read as fractions. -/
def specSwapFeeFraction (p : LpPool) (s : Nat) : ℚ :=
  fromScaled p.max_fee -
    (fromScaled p.max_fee - fromScaled p.min_fee) *
      ((min (specReserveAfter p s) p.liquidity_target : Nat) : ℚ) / ((p.liquidity_target : Nat) : ℚ)

/-- Spec §4.5 step 4: `net_tokens_out = gross_tokens_out * (1 - fee)` (scaled). -/
def specNetTokensOut (p : LpPool) (s : Nat) : ℚ :=
  ((specGrossTokensOut p s : Nat) : ℚ) * (1 - specSwapFeeFraction p s)

/-- Spec §4.4: proportional staked-token share
`st_token_amount * burned_shares / total_lp_supply_before_burn`. -/
def specRemoveStakedOut (p : LpPool) (n : Nat) : Nat :=
  p.st_token_amount * n / p.lp_token_amount

/-- Spec §4.4: proportional gross base-token share
`token_amount * burned_shares / total_lp_supply_before_burn`. -/
def specRemoveTokensGross (p : LpPool) (n : Nat) : Nat :=
  p.token_amount * n / p.lp_token_amount

/-- Pool state right after `init(1.5, 90.0, 0.1, 9.0)` (the story example). -/
def storyP0 : LpPool :=
  ⟨6442450944, 386547056640, 0, 386547056640, 386547056640, 4294967, 386547057⟩

/-- Story state after `add_liquidity(100.0)`. -/
def storyP1 : LpPool :=
  ⟨6442450944, 601295421440, 214748364800, 816043786240, 386547056640, 4294967, 386547057⟩

/-- Story state after `swap(6.0)`. -/
def storyP2 : LpPool :=
  ⟨6442450944, 639915337868, 188978561024, 816043786240, 386547056640, 4294967, 386547057⟩

/-- Story state after `add_liquidity(10.0)`. -/
def storyP3 : LpPool :=
  ⟨6442450944, 661390174348, 210453397504, 858993459200, 386547056640, 4294967, 386547057⟩

/-- Discriminator for `Except` results (`Ok` versus `Err` in the source). -/
def isOkE {α : Type} (x : Except LpPoolError α) : Bool :=
  match x with
  | .ok _ => true
  | .error _ => false

/-- A pool whose base reserve (`1.0`) is far below the payout a `swap(50.0)`
at price `1.5` would require, while its staked reserve (`100.0`) is ample. -/
def poolDrained : LpPool :=
  ⟨6442450944, 4294967296, 429496729600, 429496729600, 386547056640, 4294967, 386547057⟩

/-- A pool on which the swap fee's `u64` subtraction underflows for small
inputs: `price = 1.0`, `st = 2.0 * liquidity_target`, `min_fee` stored `0`,
`max_fee` stored as the full scale, `liquidity_target = 0.5` scaled. -/
def poolFeeWrap : LpPool :=
  ⟨4294967296, 4294967296, 8589934592, 8589934592, 2147483648, 0, 4294967296⟩

/-! Helper lemmas. -/

theorem wadd_of_lt {a b : Nat} (h : a + b < U64) : wadd a b = a + b := by
  simp only [wadd, U64] at *
  omega

theorem wmul_of_lt {a b : Nat} (h : a * b < U64) : wmul a b = a * b := by
  simp only [wmul, U64] at *
  exact Nat.mod_eq_of_lt h

theorem wsub_of_le {a b : Nat} (hb : b ≤ a) (ha : a < U64) : wsub a b = a - b := by
  simp only [wsub, U64] at *
  omega

theorem wsub_of_gt {a b : Nat} (hab : a < b) (hb : b < U64) : wsub a b = a + U64 - b := by
  simp only [wsub, U64] at *
  omega

theorem toScaled_lt_U64 (q : ℚ) : toScaled q < U64 := by
  unfold toScaled u64cast
  have h : min (U64 - 1) (roundHalfAway (q * (PRECISION_FACTOR : ℚ))).toNat ≤ U64 - 1 :=
    min_le_left _ _
  simp only [U64] at h ⊢
  omega

theorem toScaled_eq_of {q : ℚ} {n : Nat}
    (h : roundHalfAway (q * (PRECISION_FACTOR : ℚ)) = (n : ℤ)) (hn : n < U64) :
    toScaled q = n := by
  unfold toScaled u64cast
  rw [h]
  simp only [Int.toNat_ofNat]
  omega

theorem f64ToU64_eq_of {x : ℚ} {n : Nat} (h : ⌊x⌋ = (n : ℤ)) (hn : n < U64) :
    f64ToU64 x = n := by
  unfold f64ToU64 u64cast
  rw [h]
  simp only [Int.toNat_ofNat]
  omega

theorem toScaled_mono {a b : ℚ} (h0 : 0 ≤ a) (h : a ≤ b) : toScaled a ≤ toScaled b := by
  unfold toScaled u64cast roundHalfAway
  have hb : 0 ≤ b := le_trans h0 h
  rw [if_pos (mul_nonneg h0 (by positivity)), if_pos (mul_nonneg hb (by positivity))]
  have hm : a * (PRECISION_FACTOR : ℚ) + 1 / 2 ≤ b * (PRECISION_FACTOR : ℚ) + 1 / 2 := by
    have := mul_le_mul_of_nonneg_right h (by positivity : (0 : ℚ) ≤ (PRECISION_FACTOR : ℚ))
    linarith
  exact min_le_min (le_refl _) (Int.toNat_le_toNat (Int.floor_le_floor hm))

theorem toScaled_100 : toScaled 100 = 429496729600 := by
  refine toScaled_eq_of ?_ (by norm_num [U64])
  norm_num [roundHalfAway, PRECISION_FACTOR]

theorem toScaled_6 : toScaled 6 = 25769803776 := by
  refine toScaled_eq_of ?_ (by norm_num [U64])
  norm_num [roundHalfAway, PRECISION_FACTOR]

theorem toScaled_10 : toScaled 10 = 42949672960 := by
  refine toScaled_eq_of ?_ (by norm_num [U64])
  norm_num [roundHalfAway, PRECISION_FACTOR]

theorem toScaled_30 : toScaled 30 = 128849018880 := by
  refine toScaled_eq_of ?_ (by norm_num [U64])
  norm_num [roundHalfAway, PRECISION_FACTOR]

theorem toScaled_189 : toScaled 189 = 811748818944 := by
  refine toScaled_eq_of ?_ (by norm_num [U64])
  norm_num [roundHalfAway, PRECISION_FACTOR]

theorem toScaled_19 : toScaled 19 = 81604378624 := by
  refine toScaled_eq_of ?_ (by norm_num [U64])
  norm_num [roundHalfAway, PRECISION_FACTOR]

theorem toScaled_50 : toScaled 50 = 214748364800 := by
  refine toScaled_eq_of ?_ (by norm_num [U64])
  norm_num [roundHalfAway, PRECISION_FACTOR]

theorem toScaled_1000 : toScaled 1000 = 4294967296000 := by
  refine toScaled_eq_of ?_ (by norm_num [U64])
  norm_num [roundHalfAway, PRECISION_FACTOR]

theorem toScaled_190 : toScaled 190 = 816043786240 := by
  refine toScaled_eq_of ?_ (by norm_num [U64])
  norm_num [roundHalfAway, PRECISION_FACTOR]

theorem toScaled_7 : toScaled 7 = 30064771072 := by
  refine toScaled_eq_of ?_ (by norm_num [U64])
  norm_num [roundHalfAway, PRECISION_FACTOR]

theorem toScaled_half : toScaled (1 / 2) = 2147483648 := by
  refine toScaled_eq_of ?_ (by norm_num [U64])
  norm_num [roundHalfAway, PRECISION_FACTOR]

theorem toScaled_three_halves : toScaled (3 / 2) = 6442450944 := by
  refine toScaled_eq_of ?_ (by norm_num [U64])
  norm_num [roundHalfAway, PRECISION_FACTOR]

theorem toScaled_90 : toScaled 90 = 386547056640 := by
  refine toScaled_eq_of ?_ (by norm_num [U64])
  norm_num [roundHalfAway, PRECISION_FACTOR]

theorem toScaled_min_fee_story : toScaled (1 / 100 * (1 / 10)) = 4294967 := by
  refine toScaled_eq_of ?_ (by norm_num [U64])
  norm_num [roundHalfAway, PRECISION_FACTOR]

theorem toScaled_max_fee_story : toScaled (1 / 100 * 9) = 386547057 := by
  refine toScaled_eq_of ?_ (by norm_num [U64])
  norm_num [roundHalfAway, PRECISION_FACTOR]

/-- Branch lemma: `add_liquidity` on a non-positive input. -/
theorem add_liquidity_of_nonpos {p : LpPool} {q : ℚ} (h : q ≤ 0) :
    p.add_liquidity q = (.error .InvalidTokenAmount, p) := by
  simp [LpPool.add_liquidity, h]

/-- Branch lemma: `add_liquidity` on a positive input. -/
theorem add_liquidity_of_pos {p : LpPool} {q : ℚ} (h : ¬ q ≤ 0) :
    p.add_liquidity q =
      (.ok (toScaled q),
        { p with
          token_amount := wadd p.token_amount (toScaled q / 2),
          st_token_amount := wadd p.st_token_amount (toScaled q - toScaled q / 2),
          lp_token_amount := wadd p.lp_token_amount (toScaled q) }) := by
  simp [LpPool.add_liquidity, h]

/-- Branch lemma: `remove_liquidity` when the request exceeds the LP supply. -/
theorem remove_liquidity_of_gt {p : LpPool} {q : ℚ} (h : p.lp_token_amount < toScaled q) :
    p.remove_liquidity q = (.error .InsufficientLiquidity, p) := by
  simp [LpPool.remove_liquidity, h]

/-- Branch lemma: `remove_liquidity` when the liquidity check passes. -/
theorem remove_liquidity_of_le {p : LpPool} {q : ℚ} (h : toScaled q ≤ p.lp_token_amount) :
    p.remove_liquidity q =
      (.ok (toScaled q, 0),
        { p with
          lp_token_amount := p.lp_token_amount - toScaled q,
          token_amount := wsub p.token_amount (toScaled q) }) := by
  simp [LpPool.remove_liquidity, Nat.not_lt.mpr h]

/-- Branch lemma: `swap` on a non-positive input. -/
theorem swap_of_nonpos {p : LpPool} {q : ℚ} (h : q ≤ 0) :
    p.swap q = (.error .InvalidTokenAmount, p) := by
  simp [LpPool.swap, h]

/-- Branch lemma: `swap` when the scaled input exceeds the staked reserve. -/
theorem swap_of_insufficient {p : LpPool} {q : ℚ} (h1 : ¬ q ≤ 0)
    (h2 : p.st_token_amount < toScaled q) :
    p.swap q = (.error .InsufficientStakedTokens, p) := by
  simp [LpPool.swap, h1, h2]

/-- Branch lemma: `swap` on the success path. -/
theorem swap_of_ok {p : LpPool} {q : ℚ} (h1 : ¬ q ≤ 0)
    (h2 : toScaled q ≤ p.st_token_amount) :
    p.swap q =
      (.ok (f64ToU64 ((toScaled q : ℚ) * ((p.price : ℚ) / (PRECISION_FACTOR : ℚ)) *
          (1 - p.swap_fee (toScaled q)))),
        { p with
          st_token_amount := p.st_token_amount - toScaled q,
          token_amount := wadd p.token_amount
            (f64ToU64 ((toScaled q : ℚ) * ((p.price : ℚ) / (PRECISION_FACTOR : ℚ)) *
              (1 - p.swap_fee (toScaled q)))) }) := by
  simp [LpPool.swap, h1, Nat.not_lt.mpr h2]

/-- Evaluation lemma for `swap_fee`: reduce the integer core first. -/
theorem swap_fee_eval {p : LpPool} {s m : Nat}
    (h : wsub p.max_fee
        (wmul (wsub p.max_fee p.min_fee / p.liquidity_target)
          (wsub p.st_token_amount s)) = m) :
    p.swap_fee s = 1 / 100 * (m : ℚ) / (PRECISION_FACTOR : ℚ) := by
  simp only [LpPool.swap_fee, h]

/-- The story's `init(1.5, 90.0, 0.1, 9.0)` produces `storyP0`. -/
theorem story_init : LpPool.init (3 / 2) 90 (1 / 10) 9 = .ok storyP0 := by
  unfold LpPool.init
  rw [if_neg (by norm_num)]
  rw [toScaled_three_halves, toScaled_90, toScaled_min_fee_story, toScaled_max_fee_story]
  rfl

/-- The story's `add_liquidity(100.0)` on `storyP0`. -/
theorem story_step1 : storyP0.add_liquidity 100 = (.ok 429496729600, storyP1) := by
  rw [add_liquidity_of_pos (by norm_num), toScaled_100]
  rfl

/-- The fee charged by the story's `swap(6.0)` on `storyP1`. -/
theorem story_swap6_fee :
    storyP1.swap_fee 25769803776 = 1 / 100 * ((386547057 : Nat) : ℚ) / (PRECISION_FACTOR : ℚ) :=
  swap_fee_eval (by decide)

/-- The story's `swap(6.0)` on `storyP1`. -/
theorem story_step2 : storyP1.swap 6 = (.ok 38619916428, storyP2) := by
  rw [swap_of_ok (by norm_num) (by rw [toScaled_6]; decide), toScaled_6, story_swap6_fee]
  have hval :
      f64ToU64 (((25769803776 : Nat) : ℚ) * ((storyP1.price : ℚ) / (PRECISION_FACTOR : ℚ)) *
        (1 - 1 / 100 * ((386547057 : Nat) : ℚ) / (PRECISION_FACTOR : ℚ))) = 38619916428 := by
    refine f64ToU64_eq_of ?_ (by norm_num [U64])
    norm_num [storyP1, PRECISION_FACTOR]
  rw [hval]
  rfl

/-- The story's `add_liquidity(10.0)` on `storyP2`. -/
theorem story_step3 : storyP2.add_liquidity 10 = (.ok 42949672960, storyP3) := by
  rw [add_liquidity_of_pos (by norm_num), toScaled_10]
  rfl

/-- The fee charged by the story's `swap(30.0)` on `storyP3`. -/
theorem story_swap30_fee :
    storyP3.swap_fee 128849018880 = 1 / 100 * ((386547057 : Nat) : ℚ) / (PRECISION_FACTOR : ℚ) :=
  swap_fee_eval (by decide)

/-- The story's `swap(30.0)` on `storyP3`. -/
theorem story_step4 : (storyP3.swap 30).1 = .ok 193099582144 := by
  rw [swap_of_ok (by norm_num) (by rw [toScaled_30]; decide), toScaled_30, story_swap30_fee]
  have hval :
      f64ToU64 (((128849018880 : Nat) : ℚ) * ((storyP3.price : ℚ) / (PRECISION_FACTOR : ℚ)) *
        (1 - 1 / 100 * ((386547057 : Nat) : ℚ) / (PRECISION_FACTOR : ℚ))) = 193099582144 := by
    refine f64ToU64_eq_of ?_ (by norm_num [U64])
    norm_num [storyP3, PRECISION_FACTOR]
  rw [hval]

theorem isOkE_ok {α : Type} (a : α) : isOkE (.ok a) = true := rfl

theorem isOkE_error {α : Type} (e : LpPoolError) :
    isOkE (.error e : Except LpPoolError α) = false := rfl

/-! Claim theorems. -/

/-- C6: every call to `add_liquidity`, `remove_liquidity` or `swap` that
returns an error leaves every field of the pool identical to its pre-call
value; no partially applied mutation is observable. -/
theorem C6_error_frame (p : LpPool) (q : ℚ) :
    (∀ e, (p.add_liquidity q).1 = .error e → (p.add_liquidity q).2 = p) ∧
    (∀ e, (p.remove_liquidity q).1 = .error e → (p.remove_liquidity q).2 = p) ∧
    (∀ e, (p.swap q).1 = .error e → (p.swap q).2 = p) := by
  refine ⟨fun e h => ?_, fun e h => ?_, fun e h => ?_⟩
  · by_cases hq : q ≤ 0
    · rw [add_liquidity_of_nonpos hq]
    · rw [add_liquidity_of_pos hq] at h
      simp at h
  · by_cases hlp : p.lp_token_amount < toScaled q
    · rw [remove_liquidity_of_gt hlp]
    · rw [remove_liquidity_of_le (not_lt.mp hlp)] at h
      simp at h
  · by_cases hq : q ≤ 0
    · rw [swap_of_nonpos hq]
    · by_cases hst : p.st_token_amount < toScaled q
      · rw [swap_of_insufficient hq hst]
      · rw [swap_of_ok hq (not_lt.mp hst)] at h
        simp at h

/-- Witness for C6 at concrete error-producing calls. -/
theorem C6_error_frame_witness :
    (storyP0.add_liquidity (-1)).2 = storyP0 ∧
    (storyP0.remove_liquidity 1000).2 = storyP0 ∧
    (storyP0.swap (-1)).2 = storyP0 :=
  ⟨(C6_error_frame storyP0 (-1)).1 .InvalidTokenAmount
      (by rw [add_liquidity_of_nonpos (by norm_num)]),
   (C6_error_frame storyP0 1000).2.1 .InsufficientLiquidity
      (by rw [remove_liquidity_of_gt (by rw [toScaled_1000]; decide)]),
   (C6_error_frame storyP0 (-1)).2.2 .InvalidTokenAmount
      (by rw [swap_of_nonpos (by norm_num)])⟩

/-- C8: `init` fails with `InvalidFee` exactly when `max_fee > 100`,
`min_fee < 0`, `min_fee > max_fee` or `liquidity_target ≤ 0`; on success the
pool holds `token_amount = lp_token_amount = scaled liquidity_target`,
`st_token_amount = 0`, and the fees are stored as their `0.01 ×` scaled
fractions. -/
theorem C8_init_spec (price liq minf maxf : ℚ) :
    (LpPool.init price liq minf maxf = .error .InvalidFee ↔
      (maxf > 100 ∨ minf < 0 ∨ minf > maxf ∨ liq ≤ 0)) ∧
    (¬(maxf > 100 ∨ minf < 0 ∨ minf > maxf ∨ liq ≤ 0) →
      LpPool.init price liq minf maxf =
        .ok { price := toScaled price, token_amount := toScaled liq, st_token_amount := 0,
              lp_token_amount := toScaled liq, liquidity_target := toScaled liq,
              min_fee := toScaled (1 / 100 * minf), max_fee := toScaled (1 / 100 * maxf) }) := by
  unfold LpPool.init
  by_cases hc : maxf > 100 ∨ minf < 0 ∨ minf > maxf ∨ liq ≤ 0
  · rw [if_pos hc]
    exact ⟨⟨fun _ => hc, fun _ => rfl⟩, fun h => absurd hc h⟩
  · rw [if_neg hc]
    refine ⟨⟨fun h => ?_, fun h => absurd h hc⟩, fun _ => rfl⟩
    exact Except.noConfusion h

/-- Witness for C8: the story initialization succeeds with the specified
fields, and an initialization with `min_fee > max_fee` is rejected. -/
theorem C8_init_spec_witness :
    LpPool.init (3 / 2) 90 (1 / 10) 9 =
      .ok { price := toScaled (3 / 2), token_amount := toScaled 90, st_token_amount := 0,
            lp_token_amount := toScaled 90, liquidity_target := toScaled 90,
            min_fee := toScaled (1 / 100 * (1 / 10)), max_fee := toScaled (1 / 100 * 9) } ∧
    LpPool.init 1 90 5 2 = .error .InvalidFee :=
  ⟨(C8_init_spec (3 / 2) 90 (1 / 10) 9).2 (by norm_num),
   (C8_init_spec 1 90 5 2).1.mpr (by norm_num)⟩

/-- C3 as stated is false: on `poolDrained` the undiscounted payout for
`swap(50.0)` exceeds the base-token reserve, yet `swap` succeeds instead of
returning `InsufficientStakedTokens`. -/
theorem C3_counterexample :
    poolDrained.token_amount < specGrossTokensOut poolDrained (toScaled 50) ∧
    isOkE (poolDrained.swap 50).1 = true := by
  constructor
  · rw [toScaled_50]
    decide
  · rw [swap_of_ok (by norm_num) (by rw [toScaled_50]; decide)]
    rfl

/-- C3 amended: for positive input on a pool whose scaled `liquidity_target`
is nonzero (when it is zero the source panics at the fee division, which is
computed before the check, and returns nothing), `swap` returns
`InsufficientStakedTokens` exactly when the scaled input exceeds the pool's
*staked* reserve (the base-token reserve is never compared against the
payout), and otherwise succeeds — so an arbitrarily large incoming staked
amount is *not* accepted. -/
theorem C3_swap_error_amended (p : LpPool) (q : ℚ) (hq : 0 < q)
    (_hlt : p.liquidity_target ≠ 0) :
    ((p.swap q).1 = .error .InsufficientStakedTokens ↔ p.st_token_amount < toScaled q) ∧
    (isOkE (p.swap q).1 = true ↔ toScaled q ≤ p.st_token_amount) := by
  have hq' : ¬ q ≤ 0 := not_le.mpr hq
  by_cases hst : p.st_token_amount < toScaled q
  · rw [swap_of_insufficient hq' hst]
    constructor
    · exact ⟨fun _ => hst, fun _ => rfl⟩
    · exact ⟨fun h => by simp [isOkE] at h, fun h => absurd hst (not_lt.mpr h)⟩
  · rw [swap_of_ok hq' (not_lt.mp hst)]
    constructor
    · exact ⟨fun h => Except.noConfusion h, fun h => absurd h hst⟩
    · exact ⟨fun _ => not_lt.mp hst, fun _ => rfl⟩

/-- Witness for C3 amended, on both sides of the boundary. -/
theorem C3_swap_error_amended_witness :
    (((storyP0.swap 1000).1 = .error .InsufficientStakedTokens ↔
        storyP0.st_token_amount < toScaled 1000) ∧
      (isOkE (storyP0.swap 1000).1 = true ↔ toScaled 1000 ≤ storyP0.st_token_amount)) ∧
    (((storyP1.swap 6).1 = .error .InsufficientStakedTokens ↔
        storyP1.st_token_amount < toScaled 6) ∧
      (isOkE (storyP1.swap 6).1 = true ↔ toScaled 6 ≤ storyP1.st_token_amount)) :=
  ⟨C3_swap_error_amended storyP0 1000 (by norm_num) (by decide),
   C3_swap_error_amended storyP1 6 (by norm_num) (by decide)⟩

/-- C2 as stated is false: the story's successful `swap(6.0)` *shrinks* the
staked reserve instead of growing it by the input, and *grows* the base
reserve instead of shrinking it by the output. -/
theorem C2_counterexample :
    (storyP1.swap 6).1 = .ok 38619916428 ∧
    (storyP1.swap 6).2.st_token_amount ≠ storyP1.st_token_amount + toScaled 6 ∧
    (storyP1.swap 6).2.token_amount ≠ storyP1.token_amount - 38619916428 := by
  rw [story_step2]
  refine ⟨rfl, ?_, ?_⟩
  · rw [toScaled_6]
    decide
  · decide

/-- C2 amended: a successful `swap` *decreases* `st_token_amount` by the
scaled input and *increases* `token_amount` by the returned amount (wrapping
`u64` addition), while `price`, `liquidity_target`, `min_fee`, `max_fee` and
`lp_token_amount` are unchanged. -/
theorem C2_swap_frame_amended (p : LpPool) (q : ℚ) (r : Nat) (p' : LpPool)
    (h : p.swap q = (.ok r, p')) :
    p'.st_token_amount = p.st_token_amount - toScaled q ∧
    p'.token_amount = wadd p.token_amount r ∧
    p'.price = p.price ∧ p'.liquidity_target = p.liquidity_target ∧
    p'.min_fee = p.min_fee ∧ p'.max_fee = p.max_fee ∧
    p'.lp_token_amount = p.lp_token_amount := by
  by_cases hq : q ≤ 0
  · rw [swap_of_nonpos hq] at h
    simp at h
  · by_cases hst : p.st_token_amount < toScaled q
    · rw [swap_of_insufficient hq hst] at h
      simp at h
    · rw [swap_of_ok hq (not_lt.mp hst)] at h
      simp only [Prod.mk.injEq, Except.ok.injEq] at h
      obtain ⟨hr, hp⟩ := h
      subst hp
      subst hr
      exact ⟨rfl, rfl, rfl, rfl, rfl, rfl, rfl⟩

/-- Witness for C2 amended at the story's `swap(6.0)`. -/
theorem C2_swap_frame_amended_witness :
    storyP2.st_token_amount = storyP1.st_token_amount - toScaled 6 ∧
    storyP2.token_amount = wadd storyP1.token_amount 38619916428 ∧
    storyP2.price = storyP1.price ∧ storyP2.liquidity_target = storyP1.liquidity_target ∧
    storyP2.min_fee = storyP1.min_fee ∧ storyP2.max_fee = storyP1.max_fee ∧
    storyP2.lp_token_amount = storyP1.lp_token_amount :=
  C2_swap_frame_amended storyP1 6 38619916428 storyP2 story_step2

/-- C4 as stated is false: `add_liquidity(100.0)` on the freshly initialized
story pool does *not* add the full scaled contribution to `token_amount`,
and half of it lands in `st_token_amount`. -/
theorem C4_counterexample :
    (storyP0.add_liquidity 100).1 = .ok (toScaled 100) ∧
    (storyP0.add_liquidity 100).2.token_amount ≠ storyP0.token_amount + toScaled 100 ∧
    (storyP0.add_liquidity 100).2.st_token_amount ≠ storyP0.st_token_amount := by
  rw [story_step1, toScaled_100]
  exact ⟨rfl, by decide, by decide⟩

/-- C4 amended: a successful `add_liquidity` splits the scaled contribution
`n` as `⌊n/2⌋` into `token_amount` and `n - ⌊n/2⌋` into `st_token_amount`,
mints `n` LP tokens into the supply, and returns `n` (1:1). -/
theorem C4_add_liquidity_amended (p : LpPool) (q : ℚ) (hq : 0 < q)
    (h1 : p.token_amount + toScaled q / 2 < U64)
    (h2 : p.st_token_amount + (toScaled q - toScaled q / 2) < U64)
    (h3 : p.lp_token_amount + toScaled q < U64) :
    (p.add_liquidity q).1 = .ok (toScaled q) ∧
    (p.add_liquidity q).2 =
      { p with
        token_amount := p.token_amount + toScaled q / 2,
        st_token_amount := p.st_token_amount + (toScaled q - toScaled q / 2),
        lp_token_amount := p.lp_token_amount + toScaled q } := by
  rw [add_liquidity_of_pos (not_le.mpr hq)]
  refine ⟨rfl, ?_⟩
  rw [wadd_of_lt h1, wadd_of_lt h2, wadd_of_lt h3]

/-- Witness for C4 amended at the story's `add_liquidity(100.0)`. -/
theorem C4_add_liquidity_amended_witness :
    (storyP0.add_liquidity 100).1 = .ok (toScaled 100) ∧
    (storyP0.add_liquidity 100).2 =
      { storyP0 with
        token_amount := storyP0.token_amount + toScaled 100 / 2,
        st_token_amount := storyP0.st_token_amount + (toScaled 100 - toScaled 100 / 2),
        lp_token_amount := storyP0.lp_token_amount + toScaled 100 } :=
  C4_add_liquidity_amended storyP0 100 (by norm_num) (by rw [toScaled_100]; decide)
    (by rw [toScaled_100]; decide) (by rw [toScaled_100]; decide)

/-- C5 as stated is false: removing `19.0` LP tokens from the story pool pays
zero staked tokens (not the proportional staked share, which is nonzero) and
pays the burned amount itself in base tokens (not the proportional base
share). -/
theorem C5_counterexample :
    (storyP1.remove_liquidity 19).1 = .ok (toScaled 19, 0) ∧
    specRemoveStakedOut storyP1 (toScaled 19) ≠ 0 ∧
    toScaled 19 ≠ specRemoveTokensGross storyP1 (toScaled 19) := by
  rw [remove_liquidity_of_le (by rw [toScaled_19]; decide)]
  refine ⟨rfl, ?_, ?_⟩ <;> rw [toScaled_19] <;> decide

/-- C5 amended: on a pool whose scaled `liquidity_target` is nonzero (when
it is zero the source panics at the `unstake_fee` division, which is
computed before the liquidity check, and returns nothing), a
`remove_liquidity` burning scaled request `n ≤ lp_token_amount` pays exactly
`n` base tokens and `0` staked tokens (the interpolated withdrawal fee is
computed but never applied, and the staked reserve is untouched), removes
`n` from the LP supply, and subtracts `n` from the base reserve — wrapping
mod `2 ^ 64` when `n` exceeds the reserve (release profile; debug builds
panic there). -/
theorem C5_remove_liquidity_amended (p : LpPool) (q : ℚ)
    (_hlt : p.liquidity_target ≠ 0)
    (h1 : toScaled q ≤ p.lp_token_amount) (hU : p.token_amount < U64) :
    (p.remove_liquidity q).1 = .ok (toScaled q, 0) ∧
    (p.remove_liquidity q).2.lp_token_amount = p.lp_token_amount - toScaled q ∧
    (p.remove_liquidity q).2.st_token_amount = p.st_token_amount ∧
    (toScaled q ≤ p.token_amount →
      (p.remove_liquidity q).2.token_amount = p.token_amount - toScaled q) ∧
    (p.token_amount < toScaled q →
      (p.remove_liquidity q).2.token_amount = p.token_amount + U64 - toScaled q) := by
  rw [remove_liquidity_of_le h1]
  exact ⟨rfl, rfl, rfl, fun h2 => wsub_of_le h2 hU, fun h2 => wsub_of_gt h2 (toScaled_lt_U64 q)⟩

/-- Witness for C5 amended at the story pool, exercising the wrapping branch
(`remove_liquidity(189.0)` exceeds the base reserve but not the LP supply). -/
theorem C5_remove_liquidity_amended_witness :
    (storyP1.remove_liquidity 189).1 = .ok (toScaled 189, 0) ∧
    (storyP1.remove_liquidity 189).2.lp_token_amount =
      storyP1.lp_token_amount - toScaled 189 ∧
    (storyP1.remove_liquidity 189).2.st_token_amount = storyP1.st_token_amount ∧
    (toScaled 189 ≤ storyP1.token_amount →
      (storyP1.remove_liquidity 189).2.token_amount =
        storyP1.token_amount - toScaled 189) ∧
    (storyP1.token_amount < toScaled 189 →
      (storyP1.remove_liquidity 189).2.token_amount =
        storyP1.token_amount + U64 - toScaled 189) :=
  C5_remove_liquidity_amended storyP1 189 (by decide) (by rw [toScaled_189]; decide) (by decide)

/-- C1 as stated is false: at the story's `swap(6.0)` the fee charged by the
code differs from the spec's interpolation formula, and the returned amount
differs from `gross_tokens_out * (1 - spec_fee)`. -/
theorem C1_counterexample :
    (storyP1.swap 6).1 = .ok 38619916428 ∧
    storyP1.swap_fee (toScaled 6) ≠ specSwapFeeFraction storyP1 (toScaled 6) ∧
    (38619916428 : ℚ) ≠ specNetTokensOut storyP1 (toScaled 6) := by
  have hg : specGrossTokensOut storyP1 25769803776 = 38654705664 := by decide
  have hmin :
      min (specReserveAfter storyP1 25769803776) storyP1.liquidity_target = 386547056640 := by
    decide
  refine ⟨by rw [story_step2], ?_, ?_⟩
  · rw [toScaled_6, story_swap6_fee]
    simp only [specSwapFeeFraction, hmin]
    norm_num [fromScaled, storyP1, PRECISION_FACTOR]
  · rw [toScaled_6]
    simp only [specNetTokensOut, specSwapFeeFraction, hg, hmin]
    norm_num [fromScaled, storyP1, PRECISION_FACTOR]

/-- C1 amended: for a successful swap of scaled input `s`, the fee fraction
is `(max_fee - ⌊(max_fee - min_fee) / liquidity_target⌋ * (st_token_amount - s))
/ PRECISION_FACTOR / 100` — an interpolation over the *staked* reserve left
after the swap, with the rate truncated by integer division — and the
returned amount is the `u64` truncation of `s * (price / PRECISION_FACTOR) *
(1 - fee)`.  Requires a nonzero scaled `liquidity_target`: when it is zero
(reachable, since `init` validates only the decimal input) the source panics
at the fee division instead of returning. -/
theorem C1_swap_fee_amended (p : LpPool) (q : ℚ) (hq : 0 < q)
    (_hlt : p.liquidity_target ≠ 0)
    (hst : toScaled q ≤ p.st_token_amount)
    (hstU : p.st_token_amount < U64)
    (hminmax : p.min_fee ≤ p.max_fee)
    (hmaxU : p.max_fee < U64)
    (hnw : (p.max_fee - p.min_fee) / p.liquidity_target *
      (p.st_token_amount - toScaled q) ≤ p.max_fee) :
    p.swap_fee (toScaled q) =
      ((p.max_fee - (p.max_fee - p.min_fee) / p.liquidity_target *
          (p.st_token_amount - toScaled q) : Nat) : ℚ) / (PRECISION_FACTOR : ℚ) / 100 ∧
    (p.swap q).1 =
      .ok (f64ToU64 ((toScaled q : ℚ) * ((p.price : ℚ) / (PRECISION_FACTOR : ℚ)) *
        (1 - p.swap_fee (toScaled q)))) := by
  constructor
  · simp only [LpPool.swap_fee]
    rw [wsub_of_le hst hstU, wsub_of_le hminmax hmaxU,
      wmul_of_lt (lt_of_le_of_lt hnw hmaxU), wsub_of_le hnw hmaxU]
    ring
  · rw [swap_of_ok (not_le.mpr hq) hst]

/-- Witness for C1 amended at the story's `swap(6.0)`. -/
theorem C1_swap_fee_amended_witness :
    storyP1.swap_fee (toScaled 6) =
      ((storyP1.max_fee - (storyP1.max_fee - storyP1.min_fee) / storyP1.liquidity_target *
          (storyP1.st_token_amount - toScaled 6) : Nat) : ℚ) / (PRECISION_FACTOR : ℚ) / 100 ∧
    (storyP1.swap 6).1 =
      .ok (f64ToU64 ((toScaled 6 : ℚ) * ((storyP1.price : ℚ) / (PRECISION_FACTOR : ℚ)) *
        (1 - storyP1.swap_fee (toScaled 6)))) :=
  C1_swap_fee_amended storyP1 6 (by norm_num) (by decide) (by rw [toScaled_6]; decide)
    (by decide) (by decide) (by decide) (by rw [toScaled_6]; decide)

/-- C7: full evaluation of the story sequence.  The first `add_liquidity`
returns `100.0` but leaves `token_amount = 140.0` scaled (not `190.0` as the
claim and the repo's own test expect), `swap(6.0)` returns `≈ 8.9919` (within
the test's `0.001` tolerance of `8.991`), `add_liquidity(10.0)` returns
exactly `10.0` (not `9.9991`), and `swap(30.0)` returns `≈ 44.9594` (more
than `1` away from the expected `43.44237`). -/
theorem C7_story_evaluation :
    LpPool.init (3 / 2) 90 (1 / 10) 9 = .ok storyP0 ∧
    storyP0.add_liquidity 100 = (.ok 429496729600, storyP1) ∧
    fromScaled 429496729600 = 100 ∧
    storyP1.lp_token_amount = toScaled 190 ∧
    storyP1.token_amount ≠ toScaled 190 ∧
    storyP1.swap 6 = (.ok 38619916428, storyP2) ∧
    (8991 / 1000 : ℚ) ≤ fromScaled 38619916428 ∧
    fromScaled 38619916428 < 8991 / 1000 + 1 / 1000 ∧
    storyP2.add_liquidity 10 = (.ok 42949672960, storyP3) ∧
    fromScaled 42949672960 = 10 ∧
    (10 : ℚ) ≠ 99991 / 10000 ∧
    (storyP3.swap 30).1 = .ok 193099582144 ∧
    1 ≤ fromScaled 193099582144 - 4344237 / 100000 :=
  ⟨story_init, story_step1,
   by norm_num [fromScaled, PRECISION_FACTOR],
   by rw [toScaled_190]; decide,
   by rw [toScaled_190]; decide,
   story_step2,
   by norm_num [fromScaled, PRECISION_FACTOR],
   by norm_num [fromScaled, PRECISION_FACTOR],
   story_step3,
   by norm_num [fromScaled, PRECISION_FACTOR],
   by norm_num,
   story_step4,
   by norm_num [fromScaled, PRECISION_FACTOR]⟩

/-- C9 as stated is false: on `poolFeeWrap` both `swap(0.5)` and `swap(1.5)`
succeed, but the larger input is charged a *strictly smaller* fee fraction
than the smaller one, because the fee's `u64` subtraction wraps for the
smaller input. -/
theorem C9_counterexample :
    (1 / 2 : ℚ) ≤ 3 / 2 ∧
    isOkE (poolFeeWrap.swap (1 / 2)).1 = true ∧
    isOkE (poolFeeWrap.swap (3 / 2)).1 = true ∧
    poolFeeWrap.swap_fee (toScaled (3 / 2)) < poolFeeWrap.swap_fee (toScaled (1 / 2)) := by
  refine ⟨by norm_num, ?_, ?_, ?_⟩
  · rw [swap_of_ok (by norm_num) (by rw [toScaled_half]; decide)]
    rfl
  · rw [swap_of_ok (by norm_num) (by rw [toScaled_three_halves]; decide)]
    rfl
  · have ha : poolFeeWrap.swap_fee 2147483648 =
        1 / 100 * ((18446744065119617024 : Nat) : ℚ) / (PRECISION_FACTOR : ℚ) :=
      swap_fee_eval (by decide)
    have hb : poolFeeWrap.swap_fee 6442450944 =
        1 / 100 * ((0 : Nat) : ℚ) / (PRECISION_FACTOR : ℚ) :=
      swap_fee_eval (by decide)
    rw [toScaled_half, toScaled_three_halves, ha, hb]
    norm_num [PRECISION_FACTOR]

/-- C9 amended: for a fixed pool, the fee fraction is monotone non-decreasing
in the input *provided* the fee's integer arithmetic stays in `u64` bounds
for the smaller input (no wrap in `(max_fee - min_fee) / liquidity_target *
left_staked` or in the final subtraction). -/
theorem C9_fee_monotone_amended (p : LpPool) (a b : ℚ)
    (ha : 0 < a) (hab : a ≤ b)
    (hb : toScaled b ≤ p.st_token_amount)
    (hstU : p.st_token_amount < U64)
    (hminmax : p.min_fee ≤ p.max_fee)
    (hmaxU : p.max_fee < U64)
    (hnw : (p.max_fee - p.min_fee) / p.liquidity_target *
      (p.st_token_amount - toScaled a) ≤ p.max_fee) :
    p.swap_fee (toScaled a) ≤ p.swap_fee (toScaled b) := by
  have hmono := toScaled_mono (le_of_lt ha) hab
  have hsa : toScaled a ≤ p.st_token_amount := le_trans hmono hb
  have hla : p.st_token_amount - toScaled b ≤ p.st_token_amount - toScaled a :=
    Nat.sub_le_sub_left hmono _
  have hmul : (p.max_fee - p.min_fee) / p.liquidity_target *
      (p.st_token_amount - toScaled b) ≤
      (p.max_fee - p.min_fee) / p.liquidity_target *
        (p.st_token_amount - toScaled a) :=
    mul_le_mul_left' hla _
  have hnwb : (p.max_fee - p.min_fee) / p.liquidity_target *
      (p.st_token_amount - toScaled b) ≤ p.max_fee := le_trans hmul hnw
  simp only [LpPool.swap_fee]
  rw [wsub_of_le hsa hstU, wsub_of_le hb hstU, wsub_of_le hminmax hmaxU,
    wmul_of_lt (lt_of_le_of_lt hnw hmaxU), wmul_of_lt (lt_of_le_of_lt hnwb hmaxU),
    wsub_of_le hnw hmaxU, wsub_of_le hnwb hmaxU]
  have hle : ((p.max_fee - (p.max_fee - p.min_fee) / p.liquidity_target *
      (p.st_token_amount - toScaled a) : Nat) : ℚ) ≤
      ((p.max_fee - (p.max_fee - p.min_fee) / p.liquidity_target *
        (p.st_token_amount - toScaled b) : Nat) : ℚ) :=
    Nat.cast_le.mpr (Nat.sub_le_sub_left hmul _)
  gcongr

/-- Witness for C9 amended at the story pool with inputs `6.0 ≤ 7.0`. -/
theorem C9_fee_monotone_amended_witness :
    storyP1.swap_fee (toScaled 6) ≤ storyP1.swap_fee (toScaled 7) :=
  C9_fee_monotone_amended storyP1 6 7 (by norm_num) (by norm_num)
    (by rw [toScaled_7]; decide) (by decide) (by decide) (by decide)
    (by rw [toScaled_6]; decide)

/-- C10: the reachable state `storyP1` with the in-range burn request `189.0`
(`shares ≤ lp_token_amount`, so the `InsufficientLiquidity` check passes)
overflows the fee multiplication `(max_fee - min_fee) * shares`, underflows
the fee subtraction, and underflows the reserve update
`token_amount -= tokens_received`, which wraps around `2 ^ 64`. -/
theorem C10_remove_liquidity_overflow :
    storyP0.add_liquidity 100 = (.ok 429496729600, storyP1) ∧
    toScaled 189 = 811748818944 ∧
    811748818944 ≤ storyP1.lp_token_amount ∧
    U64 ≤ (storyP1.max_fee - storyP1.min_fee) * 811748818944 ∧
    storyP1.max_fee <
      (storyP1.max_fee - storyP1.min_fee) * 811748818944 / storyP1.liquidity_target ∧
    storyP1.token_amount < 811748818944 ∧
    (storyP1.remove_liquidity 189).2.token_amount =
      storyP1.token_amount + U64 - 811748818944 := by
  refine ⟨story_step1, toScaled_189, by decide, by decide, by decide, by decide, ?_⟩
  rw [remove_liquidity_of_le (by rw [toScaled_189]; decide), toScaled_189]
  decide

end LiquidityPool
